import Mathlib

/-!
Shallow embedding of the `dataapi-auth` middleware of the nodeTools
repository (`src/auth/index.js`), together with theorems about its
authorization behaviour.

Modelling conventions:
* JavaScript truthiness of an optional string (absent / empty string is
  falsy) is `truthyStr`.
* The MongoDB driver is abstracted: the result of `config.dbGetter(req)`
  is an `Option Db`, `ObjectId.isValid` is an environment-supplied
  predicate, and `collection(...).findOne({_id})` is a function from the
  collection name and the id to a `LookupResult` (found / not found /
  transport error thrown).  A thrown lookup error is the `err` result,
  which `attachUser` catches.
* Each middleware is a total function from its inputs to an `MWOutcome`:
  the ordered list of externally visible events it performs (calling
  `next()`, writing a JSON response, redirecting, assigning
  `session.returnTo`, starting and completing `session.save`), the final
  value of `res.locals.user`, and the session object after the call.
* A session whose `returnTo` assignment throws (the `try/catch` at
  src/auth/index.js:173-177) is modelled by the `assignThrows` flag; a
  session without a `save` function by `hasSave := false`; a `save` that
  reports an error to its callback by `saveErr := true`.
-/

namespace DataapiAuth

/-- JavaScript truthiness of an optional string: present and non-empty. -/
def truthyStr : Option String → Bool
  | some s => s ≠ ""
  | none => false

/-- A user record as stored in the users collection.  Besides the four
allow-listed fields it carries credential material (`passwordHash`,
`tokens`) that the store may hold and that must never be republished. -/
structure UserRecord where
  _id : String
  name : String
  email : String
  isAdmin : Option Bool
  passwordHash : Option String
  tokens : List String
deriving DecidableEq

/-- The sanitized identity snapshot published as `res.locals.user`
(src/auth/index.js:112-117). -/
structure Snapshot where
  _id : String
  name : String
  email : String
  isAdmin : Bool
deriving DecidableEq

/-- Result of `usersCollection.findOne({_id})`: a document, `null`, or a
thrown lookup/transport error. -/
inductive LookupResult
  | found (u : UserRecord)
  | notFound
  | err
deriving DecidableEq

/-- A database handle: `db.collection(name).findOne({_id: oid})`,
abstracted as a function from collection name and id string. -/
structure Db where
  findOne : String → String → LookupResult

/-- The session object supplied by the external session layer.
`assignThrows`, `hasSave` and `saveErr` model the behaviour of the
`returnTo` assignment and of `session.save` for this particular session
object. -/
structure Session where
  userId : Option String
  returnTo : Option String
  assignThrows : Bool
  hasSave : Bool
  saveErr : Bool
deriving DecidableEq

/-- The parts of the Express request the middleware reads. -/
structure Req where
  originalUrl : Option String
  url : String
  session : Option Session

/-- The per-request environment: the result of `config.dbGetter(req)` and
the driver's `ObjectId.isValid`. -/
structure Env where
  dbGetter : Option Db
  isValidObjectId : String → Bool

/-- Construction-time configuration, with the defaults of
src/auth/index.js:18-22. -/
structure Config where
  loginRedirectUrl : String := "https://data.specialblend.ca/login"
  usersCollection : String := "users"

/-- Externally visible events a middleware performs, in order. -/
inductive Event
  | nextCalled
  | respondJson (status : Nat) (estat emsg : String)
  | redirectTo (url : String)
  | setReturnTo (v : String)
  | saveStarted
  | saveCompleted (ok : Bool)
deriving DecidableEq

/-- Outcome of one middleware invocation: its event trace, the final
`res.locals.user`, and the session object afterwards. -/
structure MWOutcome where
  events : List Event
  localsUser : Option Snapshot
  sessionAfter : Option Session
deriving DecidableEq

/-- JavaScript `String.prototype.startsWith`, as a character-list prefix
test. -/
def strStartsWith (s p : String) : Bool :=
  p.toList.isPrefixOf s.toList

/-- `req.originalUrl && req.originalUrl.startsWith('/api')`
(src/auth/index.js:146 and 225). -/
def isApiRequest (req : Req) : Bool :=
  match req.originalUrl with
  | some u => u ≠ "" && strStartsWith u "/api"
  | none => false

/-- `req.originalUrl || req.url` (src/auth/index.js:174). -/
def returnToVal (req : Req) : String :=
  match req.originalUrl with
  | some u => if u ≠ "" then u else req.url
  | none => req.url

/-- The projection of a user record into the published snapshot
(src/auth/index.js:112-117): the explicit allow-list, with
`isAdmin: user.isAdmin || false`. -/
def sanitize (u : UserRecord) : Snapshot :=
  { _id := u._id, name := u.name, email := u.email, isAdmin := u.isAdmin.getD false }

/-- `attachUser` (src/auth/index.js:79-129).  It first sets
`res.locals.user = null`, then attempts resolution; every branch ends in
`next()` with no response written and the session untouched.  The
`initLocals` argument is the value `res.locals.user` holds on entry; the
code overwrites it unconditionally at line 84. -/
def attachUser (cfg : Config) (env : Env) (req : Req)
    (initLocals : Option Snapshot) : MWOutcome :=
  match req.session with
  | some s =>
    if truthyStr s.userId then
      match env.dbGetter with
      | none =>
        { events := [Event.nextCalled], localsUser := none, sessionAfter := req.session }
      | some db =>
        if env.isValidObjectId (s.userId.getD "") then
          match db.findOne cfg.usersCollection (s.userId.getD "") with
          | LookupResult.found u =>
            { events := [Event.nextCalled], localsUser := some (sanitize u),
              sessionAfter := req.session }
          | LookupResult.notFound =>
            { events := [Event.nextCalled], localsUser := none, sessionAfter := req.session }
          | LookupResult.err =>
            { events := [Event.nextCalled], localsUser := none, sessionAfter := req.session }
        else
          { events := [Event.nextCalled], localsUser := none, sessionAfter := req.session }
    else
      { events := [Event.nextCalled], localsUser := none, sessionAfter := req.session }
  | none =>
    { events := [Event.nextCalled], localsUser := none, sessionAfter := req.session }

/-- `requireAuth` (src/auth/index.js:140-195).  `locals` is the value of
`res.locals.user` on entry; `requireAuth` never touches it. -/
def requireAuth (cfg : Config) (req : Req) (locals : Option Snapshot) : MWOutcome :=
  match req.session with
  | none =>
    if isApiRequest req then
      { events := [Event.respondJson 401 "error" "Unauthorized"],
        localsUser := locals, sessionAfter := none }
    else
      { events := [Event.redirectTo cfg.loginRedirectUrl],
        localsUser := locals, sessionAfter := none }
  | some s =>
    if truthyStr s.userId then
      { events := [Event.nextCalled], localsUser := locals, sessionAfter := some s }
    else if isApiRequest req then
      { events := [Event.respondJson 401 "error" "Unauthorized"],
        localsUser := locals, sessionAfter := some s }
    else
      let s1 := if s.assignThrows then s else { s with returnTo := some (returnToVal req) }
      let evs1 := if s.assignThrows then ([] : List Event)
                  else [Event.setReturnTo (returnToVal req)]
      if s1.hasSave then
        { events := evs1 ++ [Event.saveStarted, Event.saveCompleted (!s1.saveErr),
                             Event.redirectTo cfg.loginRedirectUrl],
          localsUser := locals, sessionAfter := some s1 }
      else
        { events := evs1 ++ [Event.redirectTo cfg.loginRedirectUrl],
          localsUser := locals, sessionAfter := some s1 }

/-- `optionalAuth` (src/auth/index.js:205-213): it awaits `attachUser`
with a continuation that unconditionally calls the outer `next()`, so its
observable outcome is exactly `attachUser`'s. -/
def optionalAuth (cfg : Config) (env : Env) (req : Req)
    (initLocals : Option Snapshot) : MWOutcome :=
  attachUser cfg env req initLocals

/-- `requireAdmin` (src/auth/index.js:224-241).  `locals` is the value of
`res.locals.user` on entry (a snapshot published by `attachUser`). -/
def requireAdmin (cfg : Config) (req : Req) (locals : Option Snapshot) : MWOutcome :=
  if (match locals with | some u => u.isAdmin | none => false) then
    { events := [Event.nextCalled], localsUser := locals, sessionAfter := req.session }
  else if isApiRequest req then
    { events := [Event.respondJson 403 "error" "Forbidden: Admin access required"],
      localsUser := locals, sessionAfter := req.session }
  else
    { events := [Event.redirectTo "/"], localsUser := locals, sessionAfter := req.session }

/-- Options of `createSessionConfig` (src/auth/index.js:272-278); `none`
means the property was omitted, so the destructuring default applies. -/
structure SessionConfigOptions where
  mongoUri : String
  secret : String
  isProduction : Option Bool
  maxAge : Option Nat

/-- The cookie sub-object of the session configuration. -/
structure CookieConfig where
  maxAge : Nat
  httpOnly : Bool
  sameSite : String
  secure : Bool
deriving DecidableEq

/-- The session configuration object returned by `createSessionConfig`
(src/auth/index.js:292-306). -/
structure SessionConfig where
  name : String
  secret : String
  resave : Bool
  saveUninitialized : Bool
  databaseName : String
  collection : String
  cookie : CookieConfig
deriving DecidableEq

/-- `createSessionConfig` (src/auth/index.js:272-307).  A thrown
configuration error is an `Except.error`. -/
def createSessionConfig (o : SessionConfigOptions) : Except String SessionConfig :=
  let isProduction := o.isProduction.getD false
  let maxAge := o.maxAge.getD 86400000
  if o.mongoUri = "" then
    Except.error "dataapi-auth: mongoUri is required for session config"
  else if o.secret = "" then
    Except.error "dataapi-auth: secret is required for session config"
  else
    Except.ok
      { name := "data-api.sid"
        secret := o.secret
        resave := false
        saveUninitialized := false
        databaseName := if isProduction then "datas" else "devdatas"
        collection := "mySessions"
        cookie := { maxAge := maxAge, httpOnly := true, sameSite := "lax",
                    secure := isProduction } }

/-! ### Concrete fixtures used by counterexamples and witnesses -/

/-- A session holding a well-formed user id. -/
def sStale : Session :=
  { userId := some "690000000000000000000001", returnTo := none,
    assignThrows := false, hasSave := false, saveErr := false }

/-- An interactive request carrying `sStale`. -/
def reqStale : Req :=
  { originalUrl := some "/admin/devices", url := "/admin/devices", session := some sStale }

/-- A database handle whose user lookup finds no record for any id. -/
def dbStale : Db := { findOne := fun _ _ => LookupResult.notFound }

/-- An environment whose user lookup finds no record for any id. -/
def envStale : Env :=
  { dbGetter := some dbStale, isValidObjectId := fun _ => true }

/-- An anonymous session (no user id) whose `save` works. -/
def sAnon : Session :=
  { userId := none, returnTo := none,
    assignThrows := false, hasSave := true, saveErr := false }

/-- An interactive (non-`/api`) request carrying `sAnon`. -/
def reqWeb : Req :=
  { originalUrl := some "/admin/devices", url := "/admin/devices", session := some sAnon }

/-- A programmatic (`/api`) request carrying `sAnon`. -/
def reqApi : Req :=
  { originalUrl := some "/api/devices", url := "/api/devices", session := some sAnon }

/-- An interactive request with no session container at all. -/
def reqNoSession : Req :=
  { originalUrl := some "/admin/devices", url := "/admin/devices", session := none }

/-- An anonymous session whose `returnTo` assignment throws and whose
`save` reports an error. -/
def sFail : Session :=
  { userId := none, returnTo := none,
    assignThrows := true, hasSave := true, saveErr := true }

/-- An interactive request carrying `sFail`. -/
def reqFail : Req :=
  { originalUrl := some "/admin/devices", url := "/admin/devices", session := some sFail }

/-- An environment whose database accessor returns no handle. -/
def envNoDb : Env :=
  { dbGetter := none, isValidObjectId := fun _ => true }

/-- A stored admin record that carries credential material. -/
def uAlice : UserRecord :=
  { _id := "690000000000000000000001", name := "Alice", email := "alice@example.com",
    isAdmin := some true, passwordHash := some "bcrypt-hash", tokens := ["tok1"] }

/-- A database handle whose user lookup finds `uAlice` for every id. -/
def dbFound : Db := { findOne := fun _ _ => LookupResult.found uAlice }

/-- An environment whose user lookup finds `uAlice` for every id. -/
def envFound : Env :=
  { dbGetter := some dbFound, isValidObjectId := fun _ => true }

/-! ### Helper lemmas shared by several theorems -/

/-- Every branch of `attachUser` calls `next()` exactly once and nothing else. -/
theorem attachUser_events (cfg : Config) (env : Env) (req : Req) (init : Option Snapshot) :
    (attachUser cfg env req init).events = [Event.nextCalled] := by
  unfold attachUser
  rcases req.session with _ | s
  · rfl
  · by_cases hu : truthyStr s.userId
    · rcases env.dbGetter with _ | db
      · simp [hu]
      · by_cases hv : env.isValidObjectId (s.userId.getD "")
        · rcases hf : db.findOne cfg.usersCollection (s.userId.getD "") with u | _ | _ <;>
            simp [hu, hv, hf]
        · simp [hu, hv]
    · simp [hu]

/-- Every branch of `attachUser` leaves the session untouched. -/
theorem attachUser_sessionAfter (cfg : Config) (env : Env) (req : Req) (init : Option Snapshot) :
    (attachUser cfg env req init).sessionAfter = req.session := by
  unfold attachUser
  rcases req.session with _ | s
  · rfl
  · by_cases hu : truthyStr s.userId
    · rcases env.dbGetter with _ | db
      · simp [hu]
      · by_cases hv : env.isValidObjectId (s.userId.getD "")
        · rcases hf : db.findOne cfg.usersCollection (s.userId.getD "") with u | _ | _ <;>
            simp [hu, hv, hf]
        · simp [hu, hv]
    · simp [hu]

/-- `attachUser` publishes either no identity or the sanitized snapshot of a
record found in the store for the session's user id. -/
theorem attachUser_localsUser_cases (cfg : Config) (env : Env) (req : Req)
    (init : Option Snapshot) :
    (attachUser cfg env req init).localsUser = none ∨
      ∃ s db u, req.session = some s ∧ truthyStr s.userId = true ∧
        env.dbGetter = some db ∧
        env.isValidObjectId (s.userId.getD "") = true ∧
        db.findOne cfg.usersCollection (s.userId.getD "") = LookupResult.found u ∧
        (attachUser cfg env req init).localsUser = some (sanitize u) := by
  unfold attachUser
  rcases hs : req.session with _ | s
  · exact Or.inl rfl
  · by_cases hu : truthyStr s.userId
    · rcases hdb : env.dbGetter with _ | db
      · simp [hu]
      · by_cases hv : env.isValidObjectId (s.userId.getD "")
        · rcases hf : db.findOne cfg.usersCollection (s.userId.getD "") with u | _ | _
          · exact Or.inr ⟨s, db, u, rfl, hu, rfl, hv, hf, by simp [hu, hv, hf]⟩
          · simp [hu, hv, hf]
          · simp [hu, hv, hf]
        · simp [hu, hv]
    · simp [hu]

/-- `requireAuth` on a request whose session carries a truthy user id:
it calls `next()` and nothing else. -/
theorem requireAuth_accepts (cfg : Config) (req : Req) (locals : Option Snapshot)
    (s : Session) (hs : req.session = some s) (hu : truthyStr s.userId = true) :
    requireAuth cfg req locals =
      { events := [Event.nextCalled], localsUser := locals, sessionAfter := some s } := by
  unfold requireAuth
  rw [hs]
  simp [hu]

/-- `requireAuth` on a programmatic request whose session carries no truthy
user id: the 401 machine-readable result. -/
theorem requireAuth_unauth_api (cfg : Config) (req : Req) (locals : Option Snapshot)
    (s : Session) (hs : req.session = some s) (hu : truthyStr s.userId = false)
    (hapi : isApiRequest req = true) :
    requireAuth cfg req locals =
      { events := [Event.respondJson 401 "error" "Unauthorized"],
        localsUser := locals, sessionAfter := some s } := by
  unfold requireAuth
  rw [hs]
  simp [hu, hapi]

/-- `requireAuth` on an interactive request whose session carries no truthy
user id: the return-path recording / save / redirect branch. -/
theorem requireAuth_unauth_web (cfg : Config) (req : Req) (locals : Option Snapshot)
    (s : Session) (hs : req.session = some s) (hu : truthyStr s.userId = false)
    (hapi : isApiRequest req = false) :
    requireAuth cfg req locals =
      (let s1 := if s.assignThrows then s else { s with returnTo := some (returnToVal req) }
       let evs1 := if s.assignThrows then ([] : List Event)
                   else [Event.setReturnTo (returnToVal req)]
       if s1.hasSave then
         { events := evs1 ++ [Event.saveStarted, Event.saveCompleted (!s1.saveErr),
                              Event.redirectTo cfg.loginRedirectUrl],
           localsUser := locals, sessionAfter := some s1 }
       else
         { events := evs1 ++ [Event.redirectTo cfg.loginRedirectUrl],
           localsUser := locals, sessionAfter := some s1 }) := by
  unfold requireAuth
  rw [hs]
  simp [hu, hapi]

/-- `requireAuth` on a request with no session container: 401 for a
programmatic caller, a bare login redirect for an interactive one. -/
theorem requireAuth_noSession (cfg : Config) (req : Req) (locals : Option Snapshot)
    (hs : req.session = none) :
    requireAuth cfg req locals =
      (if isApiRequest req then
        { events := [Event.respondJson 401 "error" "Unauthorized"],
          localsUser := locals, sessionAfter := none }
       else
        { events := [Event.redirectTo cfg.loginRedirectUrl],
          localsUser := locals, sessionAfter := none }) := by
  unfold requireAuth
  rw [hs]

/-! ### Claims -/

/-- C5 counterexample: the claim says that with the production flag unset the
configuration differs from the production one only in the database name
("all other fields unchanged"), but the cookie's `secure` flag also changes:
it is `true` under the production flag and `false` without it
(src/auth/index.js:304). -/
theorem c5_counterexample :
    (createSessionConfig
        { mongoUri := "m", secret := "s", isProduction := some true, maxAge := none }).map
      (fun c => c.cookie.secure) = Except.ok true ∧
    (createSessionConfig
        { mongoUri := "m", secret := "s", isProduction := none, maxAge := none }).map
      (fun c => c.cookie.secure) = Except.ok false :=
  ⟨rfl, rfl⟩

/-- C5 (amended): given a non-empty secret and store locator, the production
flag yields the fully populated configuration with lifetime 86400000 ms,
`secure := true` and database name `datas`; with the flag unset the database
name is `devdatas` and `secure` is `false`, all other fields unchanged; an
empty secret or store locator yields a configuration error and no value. -/
theorem c5_createSessionConfig_amended (mongoUri secret : String)
    (h1 : mongoUri ≠ "") (h2 : secret ≠ "") :
    createSessionConfig
        { mongoUri := mongoUri, secret := secret, isProduction := some true, maxAge := none } =
      Except.ok
        { name := "data-api.sid", secret := secret, resave := false,
          saveUninitialized := false, databaseName := "datas", collection := "mySessions",
          cookie := { maxAge := 86400000, httpOnly := true, sameSite := "lax",
                      secure := true } } ∧
    createSessionConfig
        { mongoUri := mongoUri, secret := secret, isProduction := none, maxAge := none } =
      Except.ok
        { name := "data-api.sid", secret := secret, resave := false,
          saveUninitialized := false, databaseName := "devdatas", collection := "mySessions",
          cookie := { maxAge := 86400000, httpOnly := true, sameSite := "lax",
                      secure := false } } ∧
    (∀ b m, createSessionConfig
        { mongoUri := mongoUri, secret := "", isProduction := b, maxAge := m } =
      Except.error "dataapi-auth: secret is required for session config") ∧
    (∀ b m, createSessionConfig
        { mongoUri := "", secret := secret, isProduction := b, maxAge := m } =
      Except.error "dataapi-auth: mongoUri is required for session config") := by
  refine ⟨?_, ?_, ?_, ?_⟩
  · simp [createSessionConfig, h1, h2]
  · simp [createSessionConfig, h1, h2]
  · intro b m; simp [createSessionConfig, h1]
  · intro b m; simp [createSessionConfig]

/-- C5 witness: the amended theorem applied at `secret := "s"`,
`mongoUri := "m"`. -/
theorem c5_createSessionConfig_amended_witness :
    createSessionConfig
        { mongoUri := "m", secret := "s", isProduction := some true, maxAge := none } =
      Except.ok
        { name := "data-api.sid", secret := "s", resave := false,
          saveUninitialized := false, databaseName := "datas", collection := "mySessions",
          cookie := { maxAge := 86400000, httpOnly := true, sameSite := "lax",
                      secure := true } } ∧
    createSessionConfig
        { mongoUri := "m", secret := "s", isProduction := none, maxAge := none } =
      Except.ok
        { name := "data-api.sid", secret := "s", resave := false,
          saveUninitialized := false, databaseName := "devdatas", collection := "mySessions",
          cookie := { maxAge := 86400000, httpOnly := true, sameSite := "lax",
                      secure := false } } ∧
    createSessionConfig
        { mongoUri := "m", secret := "", isProduction := none, maxAge := none } =
      Except.error "dataapi-auth: secret is required for session config" ∧
    createSessionConfig
        { mongoUri := "", secret := "s", isProduction := none, maxAge := none } =
      Except.error "dataapi-auth: mongoUri is required for session config" := by
  obtain ⟨a, b, c, d⟩ := c5_createSessionConfig_amended "m" "s" (by decide) (by decide)
  exact ⟨a, b, c none none, d none none⟩

/-- C3: `requireAdmin` accepts exactly when a published identity is present
whose privilege flag is `true`; otherwise a programmatic caller receives the
403 machine-readable forbidden result and an interactive caller is redirected
to the home location `/`, not the login page. -/
theorem c3_requireAdmin_accepts_iff (cfg : Config) (req : Req) (locals : Option Snapshot) :
    ((requireAdmin cfg req locals).events = [Event.nextCalled] ↔
       ∃ u, locals = some u ∧ u.isAdmin = true) ∧
    (¬(∃ u, locals = some u ∧ u.isAdmin = true) →
       (requireAdmin cfg req locals).events =
         if isApiRequest req then
           [Event.respondJson 403 "error" "Forbidden: Admin access required"]
         else [Event.redirectTo "/"]) := by
  cases locals with
  | none =>
    refine ⟨?_, ?_⟩
    · simp only [requireAdmin]
      by_cases ha : isApiRequest req <;> simp [ha]
    · intro _
      simp only [requireAdmin]
      by_cases ha : isApiRequest req <;> simp [ha]
  | some u =>
    cases hu : u.isAdmin
    · refine ⟨?_, ?_⟩
      · simp only [requireAdmin, hu]
        by_cases ha : isApiRequest req <;> simp [ha, hu]
      · intro _
        simp only [requireAdmin, hu]
        by_cases ha : isApiRequest req <;> simp [ha]
    · refine ⟨?_, ?_⟩
      · simp [requireAdmin, hu]
      · intro h
        exact absurd ⟨u, rfl, hu⟩ h

/-- C3 witness: an anonymous programmatic caller (no published identity, path
`/api/devices`) receives the 403 forbidden result. -/
theorem c3_requireAdmin_accepts_iff_witness :
    (requireAdmin {} reqApi none).events =
      if isApiRequest reqApi then
        [Event.respondJson 403 "error" "Forbidden: Admin access required"]
      else [Event.redirectTo "/"] :=
  (c3_requireAdmin_accepts_iff {} reqApi none).2 (by simp)

/-- C9: invoking `attachUser` twice within the same request — the second call
starting from the locals slot the first call produced, with the session and
the store's answer unchanged — yields an identical outcome, in particular an
identical identity snapshot. -/
theorem c9_attachUser_idempotent (cfg : Config) (env : Env) (req : Req)
    (init : Option Snapshot) :
    attachUser cfg env req ((attachUser cfg env req init).localsUser) =
      attachUser cfg env req init := rfl

/-- C10: `attachUser` resets the published identity slot before resolving, so
its outcome is independent of whatever the slot held on entry, and the slot
ends up either `none` or a snapshot freshly built from the record currently
in the store. -/
theorem c10_attachUser_reset (cfg : Config) (env : Env) (req : Req)
    (a b : Option Snapshot) :
    attachUser cfg env req a = attachUser cfg env req b ∧
    ((attachUser cfg env req a).localsUser = none ∨
      ∃ s db u, req.session = some s ∧ truthyStr s.userId = true ∧
        env.dbGetter = some db ∧
        env.isValidObjectId (s.userId.getD "") = true ∧
        db.findOne cfg.usersCollection (s.userId.getD "") = LookupResult.found u ∧
        (attachUser cfg env req a).localsUser = some (sanitize u)) :=
  ⟨rfl, attachUser_localsUser_cases cfg env req a⟩

/-- C1 counterexample: a session carrying a well-formed user id that matches
no store record.  `attachUser` does publish an absent identity, but
`requireAuth` does not reject: it checks only the presence of
`req.session.userId` (src/auth/index.js:161) and calls `next()`, so the stale
session passes the Mandatory Gate, contradicting the claim that the gate
rejects it. -/
theorem c1_counterexample :
    (attachUser {} envStale reqStale none).localsUser = none ∧
    (requireAuth {} reqStale none).events = [Event.nextCalled] ∧
    (requireAuth {} reqStale none).sessionAfter = some sStale :=
  ⟨rfl, rfl, rfl⟩

/-- C1 (amended): for every request whose session carries a truthy user id
matching no store record, `attachUser` publishes an absent identity
(`res.locals.user = null`), but `requireAuth` accepts the request — it tests
only the presence of a session user id, never its resolvability, so a stale
or deleted-user session passes the Mandatory Gate while carrying no
identity. -/
theorem c1_stale_session_amended (cfg : Config) (env : Env) (req : Req) (s : Session)
    (init locals : Option Snapshot)
    (hs : req.session = some s) (hu : truthyStr s.userId = true)
    (hlook : ∀ db, env.dbGetter = some db →
       db.findOne cfg.usersCollection (s.userId.getD "") = LookupResult.notFound) :
    (attachUser cfg env req init).localsUser = none ∧
    (requireAuth cfg req locals).events = [Event.nextCalled] := by
  constructor
  · rcases attachUser_localsUser_cases cfg env req init with h | ⟨s2, db, u, hs2, _, hdb, _, hf, _⟩
    · exact h
    · rw [hs] at hs2
      obtain rfl : s = s2 := Option.some.inj hs2
      have hnot := hlook db hdb
      rw [hf] at hnot
      cases hnot
  · rw [requireAuth_accepts cfg req locals s hs hu]

/-- C1 witness: the amended theorem applied to the concrete stale-session
fixture. -/
theorem c1_stale_session_amended_witness :
    (attachUser {} envStale reqStale none).localsUser = none ∧
    (requireAuth {} reqStale none).events = [Event.nextCalled] :=
  c1_stale_session_amended {} envStale reqStale sStale none none rfl rfl
    (fun db h => by
      have h2 : some dbStale = some db := h
      cases Option.some.inj h2
      rfl)

/-- C2 counterexample: on an interactive unauthenticated request that carries
a session, `requireAuth` writes the return path onto the session
(src/auth/index.js:174), so the pipeline does modify the session object,
contradicting the claim that every stage only reads it. -/
theorem c2_counterexample :
    reqWeb.session = some sAnon ∧ sAnon.returnTo = none ∧
    (requireAuth {} reqWeb none).sessionAfter =
      some { sAnon with returnTo := some "/admin/devices" } :=
  ⟨rfl, rfl, rfl⟩

/-- C2 (amended): `attachUser`, `optionalAuth` and `requireAdmin` leave the
session untouched on every request, and so does `requireAuth` except in the
interactive-unauthenticated branch, where its only write is recording the
return path into the session's `returnTo` slot (the session is never created,
destroyed or otherwise modified). -/
theorem c2_session_frame_amended (cfg : Config) (env : Env) (req : Req)
    (init locals la : Option Snapshot) :
    (attachUser cfg env req init).sessionAfter = req.session ∧
    (optionalAuth cfg env req init).sessionAfter = req.session ∧
    (requireAdmin cfg req la).sessionAfter = req.session ∧
    ((requireAuth cfg req locals).sessionAfter = req.session ∨
      ∃ s, req.session = some s ∧ truthyStr s.userId = false ∧ isApiRequest req = false ∧
        s.assignThrows = false ∧
        (requireAuth cfg req locals).sessionAfter =
          some { s with returnTo := some (returnToVal req) }) := by
  refine ⟨attachUser_sessionAfter cfg env req init, attachUser_sessionAfter cfg env req init,
          ?_, ?_⟩
  · unfold requireAdmin
    split
    · rfl
    · split <;> rfl
  · rcases hs : req.session with _ | s
    · left
      rw [requireAuth_noSession cfg req locals hs]
      split <;> rfl
    · cases hu : truthyStr s.userId
      · cases hapi : isApiRequest req
        · cases hat : s.assignThrows
          · right
            refine ⟨s, rfl, hu, rfl, hat, ?_⟩
            rw [requireAuth_unauth_web cfg req locals s hs hu hapi]
            cases hsv : s.hasSave <;> simp [hat, hsv]
          · left
            rw [requireAuth_unauth_web cfg req locals s hs hu hapi]
            cases hsv : s.hasSave <;> simp [hat, hsv]
        · left
          rw [requireAuth_unauth_api cfg req locals s hs hu hapi]
      · left
        rw [requireAuth_accepts cfg req locals s hs hu]

/-- C4 counterexample: an unauthenticated interactive request with no session
container.  `requireAuth` redirects to the login entry point without
recording any return path (there is no session to record it on,
src/auth/index.js:158), contradicting the claim that every unauthenticated
non-`/api` request gets its path recorded as the session's return path. -/
theorem c4_counterexample :
    isApiRequest reqNoSession = false ∧
    reqNoSession.session = none ∧
    (requireAuth {} reqNoSession none).events =
      [Event.redirectTo "https://data.specialblend.ca/login"] ∧
    (requireAuth {} reqNoSession none).sessionAfter = none :=
  ⟨rfl, rfl, rfl, rfl⟩

/-- C4 (amended): caller classification is the pure predicate
`isApiRequest` on the request path prefix, and it determines the rejection
shape: every unauthenticated `/api` request receives the 401 JSON body
`{status: "error", message: "Unauthorized"}`; every unauthenticated request
on another path that carries a session whose return-path assignment does not
throw gets the originally requested path recorded as the session's return
path followed by a redirect to the login entry point; when the session
container is absent the redirect is issued without recording. -/
theorem c4_caller_classification_amended (cfg : Config) (req : Req)
    (locals : Option Snapshot) :
    (isApiRequest req = true →
      (req.session = none ∨ ∃ s, req.session = some s ∧ truthyStr s.userId = false) →
      (requireAuth cfg req locals).events = [Event.respondJson 401 "error" "Unauthorized"]) ∧
    (∀ s, isApiRequest req = false → req.session = some s → truthyStr s.userId = false →
      s.assignThrows = false →
      (requireAuth cfg req locals).events =
        Event.setReturnTo (returnToVal req) ::
          (if s.hasSave then
            [Event.saveStarted, Event.saveCompleted (!s.saveErr),
             Event.redirectTo cfg.loginRedirectUrl]
           else [Event.redirectTo cfg.loginRedirectUrl]) ∧
      (requireAuth cfg req locals).sessionAfter =
        some { s with returnTo := some (returnToVal req) }) ∧
    (isApiRequest req = false → req.session = none →
      (requireAuth cfg req locals).events = [Event.redirectTo cfg.loginRedirectUrl]) := by
  refine ⟨?_, ?_, ?_⟩
  · intro hapi hcase
    rcases hcase with hs | ⟨s, hs, hu⟩
    · rw [requireAuth_noSession cfg req locals hs]
      simp [hapi]
    · rw [requireAuth_unauth_api cfg req locals s hs hu hapi]
  · intro s hapi hs hu hat
    rw [requireAuth_unauth_web cfg req locals s hs hu hapi]
    cases hsv : s.hasSave <;> simp [hat, hsv]
  · intro hapi hs
    rw [requireAuth_noSession cfg req locals hs]
    simp [hapi]

/-- C4 witness: the amended theorem at the concrete fixtures — the
programmatic request `/api/devices` gets the 401 JSON result, the
interactive request `/admin/devices` gets `/admin/devices` recorded and the
login redirect after the save completes. -/
theorem c4_caller_classification_amended_witness :
    (requireAuth {} reqApi none).events = [Event.respondJson 401 "error" "Unauthorized"] ∧
    (requireAuth {} reqWeb none).events =
      [Event.setReturnTo "/admin/devices", Event.saveStarted, Event.saveCompleted true,
       Event.redirectTo "https://data.specialblend.ca/login"] ∧
    (requireAuth {} reqWeb none).sessionAfter =
      some { sAnon with returnTo := some "/admin/devices" } := by
  refine ⟨?_, ?_, ?_⟩
  · exact (c4_caller_classification_amended {} reqApi none).1 rfl (Or.inr ⟨sAnon, rfl, rfl⟩)
  · exact ((c4_caller_classification_amended {} reqWeb none).2.1 sAnon rfl rfl rfl rfl).1
  · exact ((c4_caller_classification_amended {} reqWeb none).2.1 sAnon rfl rfl rfl rfl).2

/-- C6: `attachUser` and `optionalAuth` always invoke the continuation and
never write a response, and every resolution failure — no database handle,
malformed user id, record not found, lookup throwing — leaves the published
identity absent, exactly as in the no-identity case. -/
theorem c6_resolver_never_blocks (cfg : Config) (env : Env) (req : Req)
    (init : Option Snapshot) :
    (attachUser cfg env req init).events = [Event.nextCalled] ∧
    (optionalAuth cfg env req init).events = [Event.nextCalled] ∧
    (env.dbGetter = none → (attachUser cfg env req init).localsUser = none) ∧
    (∀ s, req.session = some s → env.isValidObjectId (s.userId.getD "") = false →
       (attachUser cfg env req init).localsUser = none) ∧
    (∀ s db, req.session = some s → env.dbGetter = some db →
       db.findOne cfg.usersCollection (s.userId.getD "") = LookupResult.notFound →
       (attachUser cfg env req init).localsUser = none) ∧
    (∀ s db, req.session = some s → env.dbGetter = some db →
       db.findOne cfg.usersCollection (s.userId.getD "") = LookupResult.err →
       (attachUser cfg env req init).localsUser = none) := by
  refine ⟨attachUser_events cfg env req init, attachUser_events cfg env req init,
          ?_, ?_, ?_, ?_⟩
  · intro hdb
    rcases attachUser_localsUser_cases cfg env req init with h | ⟨_, db, _, _, _, hdb2, _, _, _⟩
    · exact h
    · rw [hdb] at hdb2
      cases hdb2
  · intro s hs hv
    rcases attachUser_localsUser_cases cfg env req init with h | ⟨s2, _, _, hs2, _, _, hv2, _, _⟩
    · exact h
    · rw [hs] at hs2
      obtain rfl : s = s2 := Option.some.inj hs2
      rw [hv] at hv2
      cases hv2
  · intro s db hs hdb hf
    rcases attachUser_localsUser_cases cfg env req init
      with h | ⟨s2, db2, u, hs2, _, hdb2, _, hf2, _⟩
    · exact h
    · rw [hs] at hs2
      obtain rfl : s = s2 := Option.some.inj hs2
      rw [hdb] at hdb2
      obtain rfl : db = db2 := Option.some.inj hdb2
      rw [hf] at hf2
      cases hf2
  · intro s db hs hdb hf
    rcases attachUser_localsUser_cases cfg env req init
      with h | ⟨s2, db2, u, hs2, _, hdb2, _, hf2, _⟩
    · exact h
    · rw [hs] at hs2
      obtain rfl : s = s2 := Option.some.inj hs2
      rw [hdb] at hdb2
      obtain rfl : db = db2 := Option.some.inj hdb2
      rw [hf] at hf2
      cases hf2

/-- C6 witness: with a session carrying a user id but no database handle
available, `attachUser` still calls `next()` and publishes no identity. -/
theorem c6_resolver_never_blocks_witness :
    (attachUser {} envNoDb reqStale none).events = [Event.nextCalled] ∧
    (attachUser {} envNoDb reqStale none).localsUser = none :=
  ⟨(c6_resolver_never_blocks {} envNoDb reqStale none).1,
   (c6_resolver_never_blocks {} envNoDb reqStale none).2.2.1 rfl⟩

/-- C7: when `requireAuth` rejects an interactive caller that has a session,
the login redirect is the last event — in particular it is issued only after
`session.save` completes whenever a `save` function exists (the event just
before it is the save completion) — and it is issued for every session,
including those whose return-path assignment throws or whose save reports an
error. -/
theorem c7_redirect_after_save (cfg : Config) (req : Req) (locals : Option Snapshot)
    (s : Session) (hs : req.session = some s) (hu : truthyStr s.userId = false)
    (hapi : isApiRequest req = false) :
    (requireAuth cfg req locals).events.getLast? =
      some (Event.redirectTo cfg.loginRedirectUrl) ∧
    (s.hasSave = true →
      (requireAuth cfg req locals).events.dropLast.getLast? =
        some (Event.saveCompleted (!s.saveErr))) := by
  rw [requireAuth_unauth_web cfg req locals s hs hu hapi]
  cases hat : s.assignThrows <;> cases hsv : s.hasSave <;> simp [hat, hsv]

/-- C7 witness: a session whose `returnTo` assignment throws and whose save
reports an error still ends in the login redirect, issued right after the
(failed) save completion. -/
theorem c7_redirect_after_save_witness :
    (requireAuth {} reqFail none).events.getLast? =
      some (Event.redirectTo "https://data.specialblend.ca/login") ∧
    (requireAuth {} reqFail none).events.dropLast.getLast? =
      some (Event.saveCompleted false) :=
  ⟨(c7_redirect_after_save {} reqFail none sFail rfl rfl rfl).1,
   (c7_redirect_after_save {} reqFail none sFail rfl rfl rfl).2 rfl⟩

/-- C8: whenever the store lookup resolves a record, the published snapshot
is exactly the allow-listed projection (id, name, email, privilege flag) of
that record; it is the same for any two records agreeing on those four
fields, however their credential material (`passwordHash`, `tokens`)
differs; and the privilege flag is `false` whenever the record's field is
absent or `false`. -/
theorem c8_snapshot_allowlist (cfg : Config) (env : Env) (req : Req)
    (init : Option Snapshot) (s : Session) (db : Db) (u : UserRecord)
    (hs : req.session = some s) (hu : truthyStr s.userId = true)
    (hdb : env.dbGetter = some db)
    (hv : env.isValidObjectId (s.userId.getD "") = true)
    (hf : db.findOne cfg.usersCollection (s.userId.getD "") = LookupResult.found u) :
    (attachUser cfg env req init).localsUser = some (sanitize u) ∧
    sanitize u = { _id := u._id, name := u.name, email := u.email,
                   isAdmin := u.isAdmin.getD false } ∧
    (∀ v : UserRecord, v._id = u._id → v.name = u.name → v.email = u.email →
       v.isAdmin = u.isAdmin → sanitize v = sanitize u) ∧
    ((u.isAdmin = none ∨ u.isAdmin = some false) → (sanitize u).isAdmin = false) := by
  refine ⟨?_, rfl, ?_, ?_⟩
  · unfold attachUser
    rw [hs]
    simp [hu, hdb, hv, hf]
  · intro v h1 h2 h3 h4
    simp [sanitize, h1, h2, h3, h4]
  · rintro (h | h) <;> simp [sanitize, h]

/-- C8 witness: the theorem applied to the fixture record `uAlice`, which
carries a password hash and a token that do not appear in the snapshot. -/
theorem c8_snapshot_allowlist_witness :
    (attachUser {} envFound reqStale none).localsUser = some (sanitize uAlice) ∧
    sanitize uAlice = { _id := uAlice._id, name := uAlice.name, email := uAlice.email,
                        isAdmin := uAlice.isAdmin.getD false } ∧
    (∀ v : UserRecord, v._id = uAlice._id → v.name = uAlice.name →
       v.email = uAlice.email → v.isAdmin = uAlice.isAdmin → sanitize v = sanitize uAlice) ∧
    ((uAlice.isAdmin = none ∨ uAlice.isAdmin = some false) →
       (sanitize uAlice).isAdmin = false) :=
  c8_snapshot_allowlist {} envFound reqStale none sStale dbFound uAlice rfl rfl rfl rfl rfl

end DataapiAuth
